import Mathlib

set_option maxRecDepth 100000

/-!
Shallow embedding of the query-routing and retrieval-fusion pipeline of the
Airline-Customer-Holiday-Booking repository (Milestone3): the template router
of Tools/cypher_tool.py, the graph execution and synthesis nodes of agent.py,
the vector-search tool of Tools/rag_tool.py, and the snippet serializers of
Tools/vector_embedding.py and Comparison/embedding_comparison.py.
-/

namespace Airline

/-- Python value stored in the flight_number slot of the extracted-entities
dict: the pydantic schema declares it Optional[str], but the router's
data-type correction may overwrite it with an int. -/
inductive FlightVal where
  | fstr (s : String)
  | fint (n : Int)
deriving DecidableEq

/-- The AirlineEntities record of Tools/cypher_tool.py (pydantic model), as
the dict produced by model_dump(): every field optional, `none` = Python
None. Optional[float] fields are embedded as Option Rat. -/
structure AirlineEntities where
  origin : Option String := none
  destination : Option String := none
  station_code : Option String := none
  flight_number : Option FlightVal := none
  fleet_desc : Option String := none
  record_locator : Option String := none
  feedback_id : Option String := none
  level : Option String := none
  p_class : Option String := none
  gen : Option String := none
  min_delay : Option Int := none
  max_score : Option Rat := none
  min_miles : Option Int := none
  max_miles : Option Int := none
  min_legs : Option Int := none
deriving DecidableEq

/-- Python truthiness of an optional string (None and the empty string are
falsy). -/
def truthyStr : Option String → Bool
  | none => false
  | some s => !s.data.isEmpty

/-- Python truthiness of the flight_number slot (None, the empty string and
the integer 0 are falsy). -/
def truthyFlight : Option FlightVal → Bool
  | none => false
  | some (.fstr s) => !s.data.isEmpty
  | some (.fint n) => n != 0

/-- Python str.isdigit on ASCII text: true iff the string is nonempty and
every character is a decimal digit. -/
def isdigitStr (s : String) : Bool :=
  !s.data.isEmpty && s.data.all Char.isDigit

/-- Numeric value of an all-digit string, as Python int(...) computes it
(leading zeros allowed). -/
def digitsToNat (cs : List Char) : Nat :=
  cs.foldl (fun a c => 10 * a + (c.toNat - 48)) 0

/-- Lines 95-98 of Tools/cypher_tool.py (DATA TYPE CORRECTION): when the
flight_number entry is a truthy str consisting of digits, it is overwritten,
in the same dict, by the corresponding int. -/
def normalizeFlightNumber (e : AirlineEntities) : AirlineEntities :=
  match e.flight_number with
  | some (.fstr s) =>
      if truthyFlight (some (.fstr s)) && isdigitStr s then
        { e with flight_number := some (.fint (Int.ofNat (digitsToNat s.data))) }
      else e
  | _ => e

/-- Cypher text of template Q1 (flight_search, origin and destination). -/
def cypherQ1 : String :=
  "\n        MATCH (f:Flight)-[:DEPARTS_FROM]->(o:Airport \x7bstation_code: $origin\x7d)\n        MATCH (f)-[:ARRIVES_AT]->(d:Airport \x7bstation_code: $destination\x7d)\n        RETURN f.flight_number, f.fleet_type_description, o.station_code as Origin, d.station_code as Dest\n        LIMIT 10;\n        "

/-- Cypher text of template Q2 (flight_search, destination). -/
def cypherQ2 : String :=
  "\n        MATCH (f:Flight)-[:ARRIVES_AT]->(a:Airport \x7bstation_code: $destination\x7d)\n        RETURN f.flight_number, f.fleet_type_description, a.station_code as Destination\n        LIMIT 15;\n        "

/-- Cypher text of template Q3 (flight_search, flight_number). -/
def cypherQ3 : String :=
  "\n        MATCH (f:Flight \x7bflight_number: $flight_number\x7d)\n        MATCH (f)-[:DEPARTS_FROM]->(o:Airport)\n        MATCH (f)-[:ARRIVES_AT]->(d:Airport)\n        RETURN f.flight_number, f.fleet_type_description, o.station_code as Origin, d.station_code as Dest;\n        "

/-- Cypher text of template Q4 (analyze_delays, origin and destination). -/
def cypherQ4 : String :=
  "\n        MATCH (f:Flight)-[:DEPARTS_FROM]->(o:Airport \x7bstation_code: $origin\x7d)\n        MATCH (f)-[:ARRIVES_AT]->(d:Airport \x7bstation_code: $destination\x7d)\n        MATCH (j:Journey)-[:ON]->(f)\n        RETURN f.flight_number, avg(j.arrival_delay_minutes) as Avg_Delay, max(j.arrival_delay_minutes) as Max_Delay\n        ORDER BY Avg_Delay DESC;\n        "

/-- Cypher text of template Q5 (analyze_delays, origin). -/
def cypherQ5 : String :=
  "\n        MATCH (f:Flight)-[:DEPARTS_FROM]->(a:Airport \x7bstation_code: $origin\x7d)\n        MATCH (j:Journey)-[:ON]->(f)\n        WITH f, avg(j.arrival_delay_minutes) as flight_avg_delay\n        WHERE flight_avg_delay > 15\n        RETURN f.flight_number, f.fleet_type_description, flight_avg_delay\n        ORDER BY flight_avg_delay DESC LIMIT 5;\n        "

/-- Cypher text of template Q6 (analyze_delays, fleet_desc). -/
def cypherQ6 : String :=
  "\n        MATCH (j:Journey)-[:ON]->(f:Flight)\n        WHERE f.fleet_type_description CONTAINS $fleet_desc\n        RETURN f.fleet_type_description as Fleet, avg(j.arrival_delay_minutes) as Avg_Delay\n        LIMIT 5;\n        "

/-- Cypher text of template Q7 (satisfaction_analysis, p_class). -/
def cypherQ7 : String :=
  "\n        MATCH (j:Journey \x7bpassenger_class: $p_class\x7d)-[:ON]->(f:Flight)\n        RETURN j.passenger_class, avg(j.food_satisfaction_score) as Avg_Food_Score, count(j) as Total_Pax\n        "

/-- Cypher text of template Q8 (satisfaction_analysis default). -/
def cypherQ8 : String :=
  "\n        MATCH (j:Journey)-[:ON]->(f:Flight)\n        WITH f, avg(j.food_satisfaction_score) as score\n        WHERE score < 3\n        RETURN f.flight_number, f.fleet_type_description, score\n        ORDER BY score ASC LIMIT 5;\n        "

/-- Cypher text of template Q9 (passenger_profiling, level). -/
def cypherQ9 : String :=
  "\n        MATCH (p:Passenger \x7bloyalty_program_level: $level\x7d)-[:TOOK]->(j:Journey)\n        RETURN p.loyalty_program_level, avg(j.food_satisfaction_score) as Avg_Food_Rating, avg(j.arrival_delay_minutes) as Avg_Delay_Exp\n        "

/-- Cypher text of template Q10 (passenger_profiling, record_locator). -/
def cypherQ10 : String :=
  "\n        MATCH (p:Passenger \x7brecord_locator: $record_locator\x7d)-[:TOOK]->(j:Journey)-[:ON]->(f:Flight)\n        RETURN p.record_locator, f.flight_number, j.passenger_class, j.arrival_delay_minutes\n        "

/-- Lines 100-210 of generate_cypher_query: the ordered template cascade,
evaluated on the (already normalized) entities dict. Returns the selected
Cypher text paired with the entities dict it binds as parameters, or `none`
for the fallback `return None, None`. -/
def selectTemplate (intent : String) (e : AirlineEntities) :
    Option (String × AirlineEntities) :=
  if intent == "flight_search" && truthyStr e.origin && truthyStr e.destination then
    some (cypherQ1, e)
  else if intent == "flight_search" && truthyStr e.destination then
    some (cypherQ2, e)
  else if intent == "flight_search" && truthyFlight e.flight_number then
    some (cypherQ3, e)
  else if intent == "analyze_delays" && truthyStr e.origin && truthyStr e.destination then
    some (cypherQ4, e)
  else if intent == "analyze_delays" && truthyStr e.origin then
    some (cypherQ5, e)
  else if intent == "analyze_delays" && truthyStr e.fleet_desc then
    some (cypherQ6, e)
  else if intent == "satisfaction_analysis" && truthyStr e.p_class then
    some (cypherQ7, e)
  else if intent == "satisfaction_analysis" then
    some (cypherQ8, e)
  else if intent == "passenger_profiling" && truthyStr e.level then
    some (cypherQ9, e)
  else if intent == "passenger_profiling" && truthyStr e.record_locator then
    some (cypherQ10, e)
  else none

/-- generate_cypher_query of Tools/cypher_tool.py. The function first mutates
the caller's entities dict (data-type correction), then walks the template
cascade. First component: the returned (query, parameters) pair (`none`
models `return None, None`); second component: the post-state of the caller's
dict, which is mutated in place even when the fallback fires. -/
def generate_cypher_query (intent : String) (e : AirlineEntities) :
    Option (String × AirlineEntities) × AirlineEntities :=
  let e2 := normalizeFlightNumber e
  (selectTemplate intent e2, e2)

/-- A single-quote character, used when embedding Python repr output. -/
def sq : String := String.singleton (Char.ofNat 39)

/-- Value inside a row returned by the graph store (record.data() values). -/
inductive RVal where
  | rstr (s : String)
  | rint (n : Int)
deriving DecidableEq

/-- One row returned by the graph store: a flat key-to-value mapping. -/
abbrev Row : Type := List (String × RVal)

/-- Python str() of a row value (strings get single quotes, as in repr). -/
def pyValStr : RVal → String
  | .rstr s => sq ++ s ++ sq
  | .rint n => toString n

/-- Python str() of one result dict. -/
def pyRowStr (r : Row) : String :=
  "\x7b" ++ String.intercalate ", "
    (r.map (fun kv => sq ++ kv.1 ++ sq ++ ": " ++ pyValStr kv.2)) ++ "\x7d"

/-- Python str() of the list of result dicts, as interpolated by the
synthesizer. -/
def pyRowsStr (rs : List Row) : String :=
  "[" ++ String.intercalate ", " (rs.map pyRowStr) ++ "]"

/-- The external session.run capability of the graph driver: may raise (the
error message is the exception text). -/
abbrev NeoRunner : Type := String → Option AirlineEntities → Except String (List Row)

/-- Neo4jConnection.query of Tools/database.py: returns None (`none`) when no
driver is connected, and catches any exception raised by session.run, logging
it and returning None (`none`). -/
def Neo4jConnection.query (driver : Option NeoRunner) (cypher : String)
    (params : Option AirlineEntities) : Option (List Row) :=
  match driver with
  | none => none
  | some run =>
      match run cypher params with
      | .ok recs => some recs
      | .error _ => none

/-- Python truthiness test `not state.get("cypher_sql")` on the optional
query string. -/
def notTruthySql : Option String → Bool
  | none => true
  | some s => s.data.isEmpty

/-- cypher_exec_node of agent.py. When the routed query is falsy the node
returns an empty result list without touching the graph store. Otherwise it
calls Neo4jConnection.query; if that returns None (connection failure or
query exception), the node's `len(data)` call raises a TypeError, embedded
here as `Except.error`. -/
def cypher_exec_node (driver : Option NeoRunner) (sql : Option String)
    (params : Option AirlineEntities) : Except String (List Row) :=
  if notTruthySql sql then .ok []
  else
    match Neo4jConnection.query driver (sql.getD "") params with
    | some data => .ok data
    | none => .error "TypeError: object of type NoneType has no len()"

/-- route_mode of agent.py: which workflow branches to activate for each
retrieval mode. -/
def route_mode (mode : String) : List String :=
  if mode == "baseline" then ["cypher_gen"]
  else if mode == "embeddings" then ["prompt_eng"]
  else ["cypher_gen", "prompt_eng"]

/-- The structured-data section of the synthesis prompt (synthesizer_node,
agent.py): a skip marker when the cypher branch never ran (key absent), the
stringified rows when non-empty, and a no-data marker when empty. -/
def structuredData : Option (List Row) → String
  | none => "Skipped (Mode: Embeddings Only)"
  | some rs => if rs.isEmpty then "No structured data found." else pyRowsStr rs

/-- The unstructured-data section of the synthesis prompt (synthesizer_node,
agent.py). -/
def unstructuredData : Option (List String) → String
  | none => "Skipped (Mode: Baseline Only)"
  | some ds => if ds.isEmpty then "No text context found." else String.intercalate "\n\n" ds

/-- Python str.upper() for ASCII text. -/
def strUpper (s : String) : String := ⟨s.data.map Char.toUpper⟩

/-- Literal prompt text before the MODE interpolation. -/
def promptPart0 : String :=
  "\n    You are an advanced Airline Operations Assistant.\n    Answer the user" ++ sq ++
  "s question based on the active retrieval methods.\n    \n    MODE: "

/-- Literal prompt text between the MODE and structured-data interpolations. -/
def promptPart1 : String :=
  "\n\n    1. STRUCTURED DATABASE (Facts, numbers, flight IDs):\n    "

/-- Literal prompt text between the structured and unstructured sections. -/
def promptPart2 : String :=
  "\n\n    2. UNSTRUCTURED TEXT (Reviews, feedback, descriptions):\n    "

/-- Literal prompt text between the unstructured section and the question. -/
def promptPart3 : String :=
  "\n\n    ### USER QUESTION\n    "

/-- Literal prompt text after the question: the fixed instructions. -/
def promptPart4 : String :=
  "\n\n    ### INSTRUCTIONS\n    - Use ONLY the provided data.\n    - Return answer in a user friendly manner.\n    - If a source says \"Skipped\", do not hallucinate data for it.\n    - Prioritize Structured Data for stats/delays, and Text for sentiment.\n    "

/-- The master prompt assembled by synthesizer_node of agent.py. -/
def promptText (mode userQuery : String) (cy : Option (List Row))
    (docs : Option (List String)) : String :=
  promptPart0 ++ strUpper mode ++ promptPart1 ++ structuredData cy ++
    promptPart2 ++ unstructuredData docs ++ promptPart3 ++ userQuery ++ promptPart4

/-- Response of the answer-generation capability: either a chat message with
a .content attribute or a bare value rendered through str(). -/
inductive LLMResponse where
  | withContent (content : String)
  | plain (text : String)

/-- The final-answer computation of synthesizer_node: invoke the selected
answer-generation capability on the master prompt; strip the response text;
if the call raises, the final answer is the literal error message embedding
the failure description. -/
def synthesizer_node (llm : String → Except String LLMResponse)
    (mode userQuery : String) (cy : Option (List Row))
    (docs : Option (List String)) : String :=
  match llm (promptText mode userQuery cy docs) with
  | .ok (.withContent c) => c.trim
  | .ok (.plain t) => t.trim
  | .error e => "Error during synthesis: " ++ e

/-- The FAISS index capability: maps an embedded query vector and k to the
list of row indices returned by index.search. -/
abbrev FaissIdx : Type := List Int → Nat → List Nat

/-- The sentence-embedding capability: maps text to a vector. -/
abbrev Emb : Type := String → List Int

/-- search_knowledge_base of Tools/rag_tool.py: when the index or the
embedding model failed to load, return the single placeholder snippet;
otherwise embed the query, search, and keep the hits whose index is in
range of the loaded text chunks. -/
def search_knowledge_base (index : Option FaissIdx) (embedder : Option Emb)
    (featureTexts : List String) (query : String) (k : Nat) : List String :=
  match index, embedder with
  | some idx, some emb =>
      (idx (emb query) k).filterMap
        (fun i => if i < featureTexts.length then featureTexts.get? i else none)
  | _, _ => ["Error: Database not loaded."]

/-- One journey record as extracted for snippet serialization (fields of the
RETURN clause shared by Tools/vector_embedding.py and
Comparison/embedding_comparison.py). -/
structure JourneyRecord where
  passenger_id : String
  loyalty : String
  gen : String
  p_class : String
  food_score : Int
  delay : Int
  miles : Int
  legs : Int
  flight_num : Int
  fleet : String
  origin_code : String
  dest_code : String

/-- The food_desc choice shared by both serializers: score at least 8 is
delicious and excellent, score at most 3 is terrible and poor, otherwise
average. -/
def foodDesc (score : Int) : String :=
  if score ≥ 8 then "delicious and excellent"
  else if score ≤ 3 then "terrible and poor"
  else "average"

/-- The delay_desc choice of Comparison/embedding_comparison.py. -/
def delayDesc (delay : Int) : String :=
  if delay > 30 then "significantly delayed by " ++ toString delay ++ " minutes"
  else if delay > 0 then "slightly delayed by " ++ toString delay ++ " minutes"
  else "on time"

/-- The part of every serialized snippet before the Feedback sentence, in
the vector_embedding.py variant (which reports legs). -/
def vePrefix (r : JourneyRecord) : String :=
  "Passenger " ++ r.passenger_id ++ " (" ++ r.gen ++ ", " ++ r.loyalty ++
  " status) booked " ++ r.p_class ++ " class on Flight " ++ toString r.flight_num ++
  " (operated by " ++ r.fleet ++ "). The journey from " ++ r.origin_code ++
  " to " ++ r.dest_code ++ " covered " ++ toString r.miles ++ " miles across " ++
  toString r.legs ++ " leg(s). Feedback: "

/-- The Feedback sentence of the vector_embedding.py snippet: food_desc plus
the raw arrival delay, with no delay_desc. -/
def veFeedback (r : JourneyRecord) : String :=
  "The food was " ++ foodDesc r.food_score ++ " (rated " ++
  toString r.food_score ++ "/10). The flight had an arrival delay of " ++
  toString r.delay ++ " minutes."

/-- The per-record text_representation of Tools/vector_embedding.py (lines
73-91). -/
def veText (r : JourneyRecord) : String :=
  vePrefix r ++ veFeedback r

/-- The part of every serialize_data snippet before the Feedback sentence, in
the Comparison/embedding_comparison.py variant (which omits legs). -/
def serPrefix (r : JourneyRecord) : String :=
  "Passenger " ++ r.passenger_id ++ " (" ++ r.gen ++ ", " ++ r.loyalty ++
  " status) booked " ++ r.p_class ++ " class on Flight " ++ toString r.flight_num ++
  " (operated by " ++ r.fleet ++ "). The journey from " ++ r.origin_code ++
  " to " ++ r.dest_code ++ " covered " ++ toString r.miles ++
  " miles. Feedback: "

/-- The Feedback sentence of the serialize_data snippet: food_desc plus
delay_desc. -/
def serFeedback (r : JourneyRecord) : String :=
  "The food was " ++ foodDesc r.food_score ++ " (rated " ++
  toString r.food_score ++ "/10). The flight was " ++ delayDesc r.delay ++ "."

/-- The per-record text of serialize_data in
Comparison/embedding_comparison.py. -/
def serializeText (r : JourneyRecord) : String :=
  serPrefix r ++ serFeedback r

/-- serialize_data of Comparison/embedding_comparison.py. -/
def serialize_data (rs : List JourneyRecord) : List String :=
  rs.map serializeText

/-- The feature_texts corpus built by Tools/vector_embedding.py. -/
def feature_texts (rs : List JourneyRecord) : List String :=
  rs.map veText

/-- Substring test on character lists: true iff pat occurs contiguously in
the list. -/
def listContains (l pat : List Char) : Bool :=
  match pat with
  | [] => true
  | p :: ps =>
    match l with
    | [] => false
    | c :: cs => List.isPrefixOf (p :: ps) (c :: cs) || listContains cs (p :: ps)

/-- Substring test on strings. -/
def strContains (s pat : String) : Bool := listContains s.data pat.data

/-- Canonical form of an optional string field: falsy values become absent. -/
def canonStr : Option String → Option String
  | none => none
  | some s => if s.data.isEmpty then none else some s

/-- Canonical form of the flight_number field: falsy values become absent. -/
def canonFlight : Option FlightVal → Option FlightVal
  | none => none
  | some (.fstr s) => if s.data.isEmpty then none else some (.fstr s)
  | some (.fint n) => if n = 0 then none else some (.fint n)

/-- Canonical form of an optional integer field: zero becomes absent. -/
def canonInt : Option Int → Option Int
  | none => none
  | some n => if n = 0 then none else some n

/-- Canonical form of an optional rational field: zero becomes absent. -/
def canonRat : Option Rat → Option Rat
  | none => none
  | some q => if q = 0 then none else some q

/-- Replace every falsy field value of the entities record by absence. -/
def canonEntities (e : AirlineEntities) : AirlineEntities where
  origin := canonStr e.origin
  destination := canonStr e.destination
  station_code := canonStr e.station_code
  flight_number := canonFlight e.flight_number
  fleet_desc := canonStr e.fleet_desc
  record_locator := canonStr e.record_locator
  feedback_id := canonStr e.feedback_id
  level := canonStr e.level
  p_class := canonStr e.p_class
  gen := canonStr e.gen
  min_delay := canonInt e.min_delay
  max_score := canonRat e.max_score
  min_miles := canonInt e.min_miles
  max_miles := canonInt e.max_miles
  min_legs := canonInt e.min_legs

/-- The template chosen by the cascade, without the bound parameters. -/
def routedQuery (intent : String) (e : AirlineEntities) : Option String :=
  (selectTemplate intent e).map Prod.fst

/-- Entities as extracted from "Find flights from IAX to LAX on flight 1878". -/
def entIAX : AirlineEntities :=
  { origin := some "IAX", destination := some "LAX",
    flight_number := some (.fstr "1878") }

/-- Entities with origin present, destination absent, flight number present. -/
def entORD : AirlineEntities :=
  { origin := some "ORD", flight_number := some (.fstr "1878") }

/-- Entities whose only present field is flight_number = "1878". -/
def ent1878 : AirlineEntities := { flight_number := some (.fstr "1878") }

/-- Entities whose only present field is flight_number = "AA123". -/
def entAA : AirlineEntities := { flight_number := some (.fstr "AA123") }

/-- Entities whose only present field is flight_number = "0". -/
def entZero : AirlineEntities := { flight_number := some (.fstr "0") }

/-- A journey record with food score 9 and zero arrival delay. -/
def jrOnTime : JourneyRecord :=
  { passenger_id := "PAX001", loyalty := "Gold", gen := "Gen Z",
    p_class := "Economy", food_score := 9, delay := 0, miles := 500,
    legs := 1, flight_num := 1878, fleet := "Boeing 737-800",
    origin_code := "IAX", dest_code := "LAX" }

/-- A one-row graph result, used as a concrete witness input. -/
def row0 : Row := [("f.flight_number", RVal.rint 1878)]

/-!
Helper lemmas about the substring test.
-/

theorem isPrefixOf_self_append (xs ys : List Char) :
    List.isPrefixOf xs (xs ++ ys) = true := by
  induction xs with
  | nil => cases ys <;> rfl
  | cons x l ih => simp [List.isPrefixOf, List.cons_append, ih]

theorem listContains_append (xs ys zs : List Char) :
    listContains (xs ++ (ys ++ zs)) ys = true := by
  induction xs with
  | nil =>
      cases ys with
      | nil => simp [listContains]
      | cons p ps =>
          have h : List.isPrefixOf (p :: ps) (p :: (ps ++ zs)) = true := by
            have h2 := isPrefixOf_self_append (p :: ps) zs
            rw [List.cons_append] at h2
            exact h2
          simp [listContains, h]
  | cons x xs ih =>
      cases ys with
      | nil => simp [listContains]
      | cons p ps =>
          simp [listContains, List.cons_append] at ih ⊢
          simp [ih]

theorem listContains_of_middle {l p : List Char} (h : p <:+: l) :
    listContains l p = true := by
  obtain ⟨s, t, rfl⟩ := h
  rw [List.append_assoc]
  exact listContains_append s p t

theorem strContains_middle (a p b : String) :
    strContains (a ++ p ++ b) p = true := by
  show listContains (a ++ p ++ b).data p.data = true
  apply listContains_of_middle
  exact ⟨a.data, b.data, by simp [String.data_append]⟩

/-- The fields of the entities record other than flight_number are never
touched by the data-type correction. -/
theorem normalizeFlightNumber_frame (e : AirlineEntities) :
    (normalizeFlightNumber e).origin = e.origin ∧
    (normalizeFlightNumber e).destination = e.destination ∧
    (normalizeFlightNumber e).station_code = e.station_code ∧
    (normalizeFlightNumber e).fleet_desc = e.fleet_desc ∧
    (normalizeFlightNumber e).record_locator = e.record_locator ∧
    (normalizeFlightNumber e).feedback_id = e.feedback_id ∧
    (normalizeFlightNumber e).level = e.level ∧
    (normalizeFlightNumber e).p_class = e.p_class ∧
    (normalizeFlightNumber e).gen = e.gen ∧
    (normalizeFlightNumber e).min_delay = e.min_delay ∧
    (normalizeFlightNumber e).max_score = e.max_score ∧
    (normalizeFlightNumber e).min_miles = e.min_miles ∧
    (normalizeFlightNumber e).max_miles = e.max_miles ∧
    (normalizeFlightNumber e).min_legs = e.min_legs := by
  cases hfn : e.flight_number with
  | none => simp [normalizeFlightNumber, hfn]
  | some v =>
      cases v with
      | fint n => simp [normalizeFlightNumber, hfn]
      | fstr s =>
          by_cases hg : (truthyFlight (some (.fstr s)) && isdigitStr s) = true
          · simp [normalizeFlightNumber, hfn, hg]
          · simp [normalizeFlightNumber, hfn, hg]

/-- Claim C1, counterexample. For intent flight_search with origin "ORD" present,
destination absent and flight_number "1878" present, the router selects the
single-flight template Q3 even though origin is present: the claim that the
single-flight template is chosen only when both origin and destination are
absent is false on the code.
-/
theorem flight_search_single_flight_despite_origin :
    truthyStr entORD.origin = true ∧
    (generate_cypher_query "flight_search" entORD).1 =
      some (cypherQ3, { entORD with flight_number := some (.fint 1878) }) := by
  constructor
  · decide
  · decide

/-- Claim C1 (amended): for intent flight_search the router applies its
predicates in fixed order with first-match-wins; whenever both origin and
destination are truthily present, the exact-route template Q1 is selected
even if flight_number is also present; the destination-only template Q2 is
selected exactly when destination is present and origin is absent; the
single-flight template Q3 is selected whenever destination is absent and
flight_number is present, and its selection guarantees destination is absent
and flight_number present (origin may be present as well).
-/
theorem flight_search_priority (e : AirlineEntities) :
    (truthyStr e.origin = true → truthyStr e.destination = true →
      selectTemplate "flight_search" e = some (cypherQ1, e)) ∧
    (truthyStr e.origin = false → truthyStr e.destination = true →
      selectTemplate "flight_search" e = some (cypherQ2, e)) ∧
    (∀ p, selectTemplate "flight_search" e = some (cypherQ2, p) →
      truthyStr e.origin = false) ∧
    (truthyStr e.destination = false → truthyFlight e.flight_number = true →
      selectTemplate "flight_search" e = some (cypherQ3, e)) ∧
    (∀ p, selectTemplate "flight_search" e = some (cypherQ3, p) →
      truthyStr e.destination = false ∧ truthyFlight e.flight_number = true) := by
  have h12 : cypherQ1 ≠ cypherQ2 := by decide
  have h13 : cypherQ1 ≠ cypherQ3 := by decide
  have h23 : cypherQ2 ≠ cypherQ3 := by decide
  have h21 : cypherQ2 ≠ cypherQ1 := by decide
  have h31 : cypherQ3 ≠ cypherQ1 := by decide
  have h32 : cypherQ3 ≠ cypherQ2 := by decide
  have hA : "flight_search" ≠ "analyze_delays" := by decide
  have hS : "flight_search" ≠ "satisfaction_analysis" := by decide
  have hP : "flight_search" ≠ "passenger_profiling" := by decide
  cases ho : truthyStr e.origin <;> cases hd : truthyStr e.destination <;>
    cases hf : truthyFlight e.flight_number <;>
      simp_all [selectTemplate]

/-- Claim C1 witness: on the entities of "Find flights from IAX to LAX"
with flight number 1878 also present, the exact-route template Q1 wins. -/
theorem flight_search_priority_witness :
    truthyStr entIAX.origin = true ∧ truthyStr entIAX.destination = true ∧
    selectTemplate "flight_search" entIAX = some (cypherQ1, entIAX) :=
  ⟨by decide, by decide,
    (flight_search_priority entIAX).1 (by decide) (by decide)⟩

/-- Claim C2: before any template predicate is evaluated, a flight_number
present as a string of digits is converted to an integer; a flight_number
string containing a non-digit character is left unchanged; every other
entity field passes through unconverted; "1878" becomes the integer 1878
and "AA123" stays a string.
-/
theorem flight_number_normalization (e : AirlineEntities) :
    (∀ s, e.flight_number = some (.fstr s) → isdigitStr s = true →
      normalizeFlightNumber e =
        { e with flight_number := some (.fint (Int.ofNat (digitsToNat s.data))) }) ∧
    (∀ s c, e.flight_number = some (.fstr s) → c ∈ s.data → c.isDigit = false →
      normalizeFlightNumber e = e) ∧
    ((normalizeFlightNumber e).origin = e.origin ∧
     (normalizeFlightNumber e).destination = e.destination ∧
     (normalizeFlightNumber e).station_code = e.station_code ∧
     (normalizeFlightNumber e).fleet_desc = e.fleet_desc ∧
     (normalizeFlightNumber e).record_locator = e.record_locator ∧
     (normalizeFlightNumber e).feedback_id = e.feedback_id ∧
     (normalizeFlightNumber e).level = e.level ∧
     (normalizeFlightNumber e).p_class = e.p_class ∧
     (normalizeFlightNumber e).gen = e.gen ∧
     (normalizeFlightNumber e).min_delay = e.min_delay ∧
     (normalizeFlightNumber e).max_score = e.max_score ∧
     (normalizeFlightNumber e).min_miles = e.min_miles ∧
     (normalizeFlightNumber e).max_miles = e.max_miles ∧
     (normalizeFlightNumber e).min_legs = e.min_legs) ∧
    (generate_cypher_query "flight_search" ent1878).2.flight_number =
      some (.fint 1878) ∧
    (generate_cypher_query "flight_search" entAA).2.flight_number =
      some (.fstr "AA123") := by
  refine ⟨?_, ?_, normalizeFlightNumber_frame e, by decide, by decide⟩
  · intro s hs hd
    have hne : s.data.isEmpty = false := by
      have := (Bool.and_eq_true _ _).mp hd
      simpa using this.1
    simp [normalizeFlightNumber, hs, truthyFlight, hne, hd]
  · intro s c hs hc hcd
    have hall : s.data.all Char.isDigit = false := by
      cases h2 : s.data.all Char.isDigit with
      | false => rfl
      | true =>
          have := List.all_eq_true.mp h2 c hc
          rw [hcd] at this
          exact absurd this (by simp)
    have hfalse : isdigitStr s = false := by
      rw [isdigitStr, hall, Bool.and_false]
    simp [normalizeFlightNumber, hs, hfalse]

/-- Claim C2 witness: concrete normalization of the digit string "1878". -/
theorem flight_number_normalization_witness :
    ent1878.flight_number = some (.fstr "1878") ∧ isdigitStr "1878" = true ∧
    normalizeFlightNumber ent1878 =
      { ent1878 with
        flight_number := some (.fint (Int.ofNat (digitsToNat "1878".data))) } :=
  ⟨rfl, by decide,
    (flight_number_normalization ent1878).1 "1878" rfl (by decide)⟩

/-- Claim C10: the router's required-field predicates test Python truthiness,
so a present field whose value is falsy (empty string, numeric zero) routes
exactly like an absent field; in particular for intent flight_search with
flight_number extracted as "0" and no origin or destination, normalization
yields the integer 0 and the router returns the none sentinel instead of
the single-flight template.
-/
theorem truthiness_routing (intent : String) (e : AirlineEntities) :
    routedQuery intent (canonEntities e) = routedQuery intent e ∧
    (generate_cypher_query "flight_search" entZero).1 = none ∧
    (generate_cypher_query "flight_search" entZero).2.flight_number =
      some (.fint 0) := by
  refine ⟨?_, by decide, by decide⟩
  have hs : ∀ v, truthyStr (canonStr v) = truthyStr v := by
    intro v
    cases v with
    | none => rfl
    | some s => by_cases h : s.data.isEmpty <;> simp [canonStr, truthyStr, h]
  have hf : ∀ v, truthyFlight (canonFlight v) = truthyFlight v := by
    intro v
    rcases v with _ | v
    · rfl
    · cases v with
      | fstr s =>
          by_cases h : s.data.isEmpty <;> simp [canonFlight, truthyFlight, h]
      | fint n =>
          by_cases h : n = 0 <;> simp [canonFlight, truthyFlight, h]
  simp only [routedQuery, selectTemplate, canonEntities, hs, hf,
    apply_ite (Option.map (Prod.fst : String × AirlineEntities → String)),
    Option.map_some', Option.map_none']

/-- Claim C8, counterexample: the router is not side-effect-free on the entities
record — with flight_number "1878" the data-type correction rewrites the
caller's dict in place, so the post-state differs from the record passed in.
-/
theorem router_mutates_entities :
    (generate_cypher_query "flight_search" ent1878).2 ≠ ent1878 := by
  decide

/-- Claim C8 (amended): routing leaves every field of the entities record
unchanged except flight_number, which the in-place data-type correction
rewrites to an integer exactly when it is a truthy all-digit string; when
flight_number is absent or already an integer the record ends exactly as
passed in.
-/
theorem router_frame (intent : String) (e : AirlineEntities) :
    (generate_cypher_query intent e).2 = normalizeFlightNumber e ∧
    ((generate_cypher_query intent e).2.origin = e.origin ∧
     (generate_cypher_query intent e).2.destination = e.destination ∧
     (generate_cypher_query intent e).2.station_code = e.station_code ∧
     (generate_cypher_query intent e).2.fleet_desc = e.fleet_desc ∧
     (generate_cypher_query intent e).2.record_locator = e.record_locator ∧
     (generate_cypher_query intent e).2.feedback_id = e.feedback_id ∧
     (generate_cypher_query intent e).2.level = e.level ∧
     (generate_cypher_query intent e).2.p_class = e.p_class ∧
     (generate_cypher_query intent e).2.gen = e.gen ∧
     (generate_cypher_query intent e).2.min_delay = e.min_delay ∧
     (generate_cypher_query intent e).2.max_score = e.max_score ∧
     (generate_cypher_query intent e).2.min_miles = e.min_miles ∧
     (generate_cypher_query intent e).2.max_miles = e.max_miles ∧
     (generate_cypher_query intent e).2.min_legs = e.min_legs) ∧
    (e.flight_number = none → (generate_cypher_query intent e).2 = e) ∧
    (∀ n, e.flight_number = some (.fint n) →
      (generate_cypher_query intent e).2 = e) := by
  refine ⟨rfl, normalizeFlightNumber_frame e, ?_, ?_⟩
  · intro h
    show normalizeFlightNumber e = e
    simp [normalizeFlightNumber, h]
  · intro n h
    show normalizeFlightNumber e = e
    simp [normalizeFlightNumber, h]

/-- Claim C8 witness: on an all-absent entities record routing changes
nothing. -/
theorem router_frame_witness :
    ({} : AirlineEntities).flight_number = none ∧
    (generate_cypher_query "flight_search" {}).2 = {} :=
  ⟨rfl, (router_frame "flight_search" {}).2.2.1 rfl⟩

/-- Claim C3, counterexample: the skipped graph path is not distinguishable
downstream from an executed query that returned zero rows. Against a graph
capability whose executed queries return zero rows, the node's output in
the routed-none case equals its output for an executed empty query (both
the empty row list), and the synthesizer renders both states with the same
"No structured data found." framing rather than a skip marker.
-/
theorem skip_vs_empty_indistinct :
    cypher_exec_node (some (fun _ _ => .ok [])) none none =
      cypher_exec_node (some (fun _ _ => .ok [])) (some cypherQ2) (some entIAX) ∧
    structuredData (some []) = "No structured data found." := by
  exact ⟨rfl, rfl⟩

/-- Claim C3 (amended): when the router returns the none sentinel, the graph
retrieval path never calls the graph store and yields the empty row list —
the very value an executed zero-row query yields — so downstream both
render as "No structured data found."; the "Skipped" framing arises only
when the mode leaves the branch unexecuted (results key absent).
-/
theorem skip_returns_empty (driver driver2 : Option NeoRunner)
    (params params2 : Option AirlineEntities) :
    cypher_exec_node driver none params = .ok [] ∧
    cypher_exec_node driver none params = cypher_exec_node driver2 none params2 ∧
    structuredData (some []) = "No structured data found." ∧
    structuredData none = "Skipped (Mode: Embeddings Only)" := by
  exact ⟨rfl, rfl, rfl, rfl⟩

/-- Claim C5: the code violates it. When the graph capability raises during an
executed routed query, Neo4jConnection.query catches the exception and
returns None; back in cypher_exec_node the len(data) call on None then
raises a TypeError, so the workflow is interrupted instead of degrading the
branch to "no results" and continuing to synthesis.
-/
theorem graph_failure_interrupts :
    Neo4jConnection.query (some (fun _ _ => .error "ServiceUnavailable"))
      cypherQ2 (some entIAX) = none ∧
    cypher_exec_node (some (fun _ _ => .error "ServiceUnavailable"))
      (some cypherQ2) (some entIAX) =
      .error "TypeError: object of type NoneType has no len()" := by
  exact ⟨rfl, rfl⟩

/-- Claim C6: when the vector index or the embedding model is unavailable, the
vector retrieval path returns exactly the one-element placeholder snippet
"Error: Database not loaded." — never an empty collection and never an
exception — so the request continues to synthesis.
-/
theorem rag_unavailable_placeholder (index : Option FaissIdx)
    (embedder : Option Emb) (texts : List String) (q : String) (k : Nat)
    (h : index = none ∨ embedder = none) :
    search_knowledge_base index embedder texts q k =
      ["Error: Database not loaded."] ∧
    (search_knowledge_base index embedder texts q k).length = 1 := by
  rcases h with h | h
  · subst h
    exact ⟨rfl, rfl⟩
  · subst h
    cases index <;> exact ⟨rfl, rfl⟩

/-- Claim C6 witness: with the index missing and the model loaded, the path
returns the placeholder snippet. -/
theorem rag_unavailable_placeholder_witness :
    ((none : Option FaissIdx) = none ∨ (some (fun _ => []) : Option Emb) = none) ∧
    search_knowledge_base none (some (fun _ => [])) [] "any question" 3 =
      ["Error: Database not loaded."] :=
  ⟨Or.inl rfl,
    (rag_unavailable_placeholder none (some (fun _ => [])) [] "any question" 3
      (Or.inl rfl)).1⟩

/-- Claim C7: if the answer-generation capability raises during synthesis, the
request terminates with a final answer that is the literal error message
embedding the failure description; the orchestrator does not retry or
propagate, and the caller receives text.
-/
theorem synthesis_failure_terminal (llm : String → Except String LLMResponse)
    (mode uq : String) (cy : Option (List Row)) (docs : Option (List String))
    (e : String) (h : llm (promptText mode uq cy docs) = .error e) :
    synthesizer_node llm mode uq cy docs = "Error during synthesis: " ++ e := by
  simp [synthesizer_node, h]

/-- Claim C7 witness: a capability that raises "boom" yields the literal
error-message answer. -/
theorem synthesis_failure_terminal_witness :
    (fun _ : String => (Except.error "boom" : Except String LLMResponse))
        (promptText "hybrid" "any question" none none) =
      Except.error "boom" ∧
    synthesizer_node (fun _ => .error "boom") "hybrid" "any question" none none =
      "Error during synthesis: " ++ "boom" :=
  ⟨rfl, synthesis_failure_terminal (fun _ => .error "boom") "hybrid"
    "any question" none none "boom" rfl⟩

/-- The synthesis prompt contains its structured-data section verbatim. -/
theorem promptText_contains_structured (mode uq : String)
    (cy : Option (List Row)) (docs : Option (List String)) :
    strContains (promptText mode uq cy docs) (structuredData cy) = true := by
  show listContains (promptText mode uq cy docs).data (structuredData cy).data = true
  apply listContains_of_middle
  refine ⟨(promptPart0 ++ strUpper mode ++ promptPart1).data,
    (promptPart2 ++ unstructuredData docs ++ promptPart3 ++ uq ++ promptPart4).data, ?_⟩
  simp [promptText, String.data_append, List.append_assoc]

/-- The synthesis prompt contains its unstructured-data section verbatim. -/
theorem promptText_contains_unstructured (mode uq : String)
    (cy : Option (List Row)) (docs : Option (List String)) :
    strContains (promptText mode uq cy docs) (unstructuredData docs) = true := by
  show listContains (promptText mode uq cy docs).data (unstructuredData docs).data = true
  apply listContains_of_middle
  refine ⟨(promptPart0 ++ strUpper mode ++ promptPart1 ++ structuredData cy ++
      promptPart2).data,
    (promptPart3 ++ uq ++ promptPart4).data, ?_⟩
  simp [promptText, String.data_append, List.append_assoc]

/-- The synthesis prompt contains the original user question verbatim. -/
theorem promptText_contains_question (mode uq : String)
    (cy : Option (List Row)) (docs : Option (List String)) :
    strContains (promptText mode uq cy docs) uq = true := by
  show listContains (promptText mode uq cy docs).data uq.data = true
  apply listContains_of_middle
  refine ⟨(promptPart0 ++ strUpper mode ++ promptPart1 ++ structuredData cy ++
      promptPart2 ++ unstructuredData docs ++ promptPart3).data,
    promptPart4.data, ?_⟩
  simp [promptText, String.data_append, List.append_assoc]

/-- Claim C4, counterexample: in baseline mode with the graph branch activated
and returning zero rows, the synthesis prompt does not contain the literal
"No data found" marker required by the claim; the actual marker is
"No structured data found.".
-/
theorem no_data_found_marker_missing :
    structuredData (some []) = "No structured data found." ∧
    strContains
      (promptText "baseline" "Find flights from IAX to LAX" (some []) none)
      "No data found" = false := by
  exact ⟨rfl, by decide⟩

/-- Claim C4 (amended): the retrieval mode determines exactly which branches run
(baseline only the graph branch, embeddings only the vector branch, hybrid
both); the synthesis prompt contains a literal "Skipped (...)" marker for
each branch not activated by the mode, the branch's stringified result when
activated and non-empty, the literal markers "No structured data found." /
"No text context found." when activated but empty, and the original user
question.
-/
theorem synthesis_prompt_contract (mode uq : String) (cy : Option (List Row))
    (docs : Option (List String)) :
    (∀ rs : List Row, rs ≠ [] → structuredData (some rs) = pyRowsStr rs) ∧
    (∀ ds : List String, ds ≠ [] →
      unstructuredData (some ds) = String.intercalate "\n\n" ds) ∧
    route_mode "baseline" = ["cypher_gen"] ∧
    route_mode "embeddings" = ["prompt_eng"] ∧
    route_mode "hybrid" = ["cypher_gen", "prompt_eng"] ∧
    strContains (promptText mode uq cy docs) (structuredData cy) = true ∧
    strContains (promptText mode uq cy docs) (unstructuredData docs) = true ∧
    strContains (promptText mode uq cy docs) uq = true ∧
    structuredData none = "Skipped (Mode: Embeddings Only)" ∧
    unstructuredData none = "Skipped (Mode: Baseline Only)" ∧
    structuredData (some []) = "No structured data found." ∧
    unstructuredData (some []) = "No text context found." := by
  refine ⟨?_, ?_, rfl, rfl, rfl,
    promptText_contains_structured mode uq cy docs,
    promptText_contains_unstructured mode uq cy docs,
    promptText_contains_question mode uq cy docs, rfl, rfl, rfl, rfl⟩
  · intro rs h
    cases rs with
    | nil => exact absurd rfl h
    | cons a l => rfl
  · intro ds h
    cases ds with
    | nil => exact absurd rfl h
    | cons a l => rfl

/-- Claim C4 witness: the non-empty branch sections render the stringified
results. -/
theorem synthesis_prompt_contract_witness :
    ([row0] : List Row) ≠ [] ∧
    structuredData (some [row0]) = pyRowsStr [row0] ∧
    (["ok"] : List String) ≠ [] ∧
    unstructuredData (some ["ok"]) = String.intercalate "\n\n" ["ok"] :=
  ⟨by decide,
    (synthesis_prompt_contract "baseline" "q" (some [row0]) none).1
      [row0] (by decide),
   by decide,
    (synthesis_prompt_contract "baseline" "q" none (some ["ok"])).2.1
      ["ok"] (by decide)⟩

/-- Claim C9, counterexample: the main snippet corpus built by
Tools/vector_embedding.py has no delay_desc — for a zero-delay record the
claim requires the snippet to contain "was on time", but the serialized
text instead reports the raw delay in minutes.
-/
theorem snippet_delay_desc_missing :
    jrOnTime.delay = 0 ∧
    strContains (veText jrOnTime) "was on time" = false ∧
    strContains (veText jrOnTime)
      "The flight had an arrival delay of 0 minutes." = true := by
  refine ⟨rfl, by decide, by decide⟩

/-- Claim C9 (amended): snippet entries of the comparison corpus
(serialize_data) choose food_desc by score (at least 8 delicious and
excellent, at most 3 terrible and poor, otherwise average) and delay_desc
by delay (0 on time, up to 30 slightly delayed by N minutes, beyond 30
significantly delayed by N minutes), both embedded in the Feedback
sentence; entries of the main corpus (vector_embedding) use the same
food_desc — so a score-9 record's snippet contains "delicious and
excellent (rated 9/10)" in both corpora — but report the raw arrival delay
with no delay_desc.
-/
theorem snippet_serialization (r : JourneyRecord) :
    (r.food_score ≥ 8 → foodDesc r.food_score = "delicious and excellent") ∧
    (r.food_score ≤ 3 → foodDesc r.food_score = "terrible and poor") ∧
    (3 < r.food_score → r.food_score < 8 → foodDesc r.food_score = "average") ∧
    (r.delay = 0 → delayDesc r.delay = "on time") ∧
    (0 < r.delay → r.delay ≤ 30 →
      delayDesc r.delay = "slightly delayed by " ++ toString r.delay ++ " minutes") ∧
    (30 < r.delay →
      delayDesc r.delay = "significantly delayed by " ++ toString r.delay ++ " minutes") ∧
    strContains (serializeText r) (serFeedback r) = true ∧
    strContains (veText r) (veFeedback r) = true ∧
    strContains (serializeText jrOnTime) "delicious and excellent (rated 9/10)" = true ∧
    strContains (veText jrOnTime) "delicious and excellent (rated 9/10)" = true := by
  refine ⟨?_, ?_, ?_, ?_, ?_, ?_, ?_, ?_, by decide, by decide⟩
  · intro h
    simp [foodDesc, h]
  · intro h
    have h8 : ¬ r.food_score ≥ 8 := by omega
    simp [foodDesc, h8, h]
  · intro h1 h2
    have h8 : ¬ r.food_score ≥ 8 := by omega
    have h3 : ¬ r.food_score ≤ 3 := by omega
    simp [foodDesc, h8, h3]
  · intro h
    have h30 : ¬ r.delay > 30 := by omega
    have h0 : ¬ r.delay > 0 := by omega
    simp [delayDesc, h30, h0]
  · intro h1 h2
    have h30 : ¬ r.delay > 30 := by omega
    simp [delayDesc, h30, h1]
  · intro h
    simp [delayDesc, h]
  · show listContains (serializeText r).data (serFeedback r).data = true
    apply listContains_of_middle
    exact ⟨(serPrefix r).data, [], by simp [serializeText, String.data_append]⟩
  · show listContains (veText r).data (veFeedback r).data = true
    apply listContains_of_middle
    exact ⟨(vePrefix r).data, [], by simp [veText, String.data_append]⟩

/-- Claim C9 witness: the score-9, zero-delay record hits the delicious
branch, and its delay renders as on time in the comparison corpus. -/
theorem snippet_serialization_witness :
    jrOnTime.food_score ≥ 8 ∧
    foodDesc jrOnTime.food_score = "delicious and excellent" ∧
    jrOnTime.delay = 0 ∧
    delayDesc jrOnTime.delay = "on time" :=
  ⟨by decide, (snippet_serialization jrOnTime).1 (by decide), rfl,
    (snippet_serialization jrOnTime).2.2.2.1 rfl⟩

end Airline
